import Mathlib

/-!
Shallow embedding of the citizen-service alert pipeline:
the alert controller (src/controllers/alert.controller.js) and the
upload service (upload.service.js, provided unnamed in the sources).
JavaScript dynamic values are modelled by the inductive `JSVal`,
`undefined` fields by `Option`, thrown exceptions by `Except`,
and the on-disk upload store by an explicit list of existing paths.
-/

namespace Citizen

/-- A JavaScript runtime value, as far as the alert pipeline inspects one:
strings, rational numbers, booleans, arrays and null. `undefined` is
represented by `Option.none` at each use site. -/
inductive JSVal where
  | str (s : String)
  | num (q : ℚ)
  | bool (b : Bool)
  | arr (xs : List JSVal)
  | null

/-- JavaScript truthiness of a defined value. -/
def jsTruthyV : JSVal → Bool
  | .str s => s ≠ ""
  | .num q => q ≠ 0
  | .bool b => b
  | .arr _ => true
  | .null => false

/-- Array.isArray. -/
def isArr : JSVal → Bool
  | .arr _ => true
  | _ => false

/-- The .length of an array value (only ever read behind an isArr check). -/
def arrLen : JSVal → Nat
  | .arr xs => xs.length
  | _ => 0

/-- Characters after the last slash of a path, accumulator-style. -/
def basenameChars : List Char → List Char → List Char
  | [], acc => acc.reverse
  | c :: cs, acc => if c = '/' then basenameChars cs [] else basenameChars cs (c :: acc)

/-- path.basename: the last slash-separated component of a path. -/
def basename (p : String) : String :=
  ⟨basenameChars p.data []⟩

/-- Prefix test s.startsWith(pre) on the underlying characters. -/
def strStartsWith (s pre : String) : Bool :=
  pre.data.isPrefixOf s.data

/-- Whether sub occurs as a contiguous run inside s. -/
def charsInclude (s sub : List Char) : Bool :=
  match s with
  | [] => sub.isEmpty
  | _ :: rest => sub.isPrefixOf s || charsInclude rest sub

/-- Substring test fileUrl.includes(sub). -/
def strIncludes (s sub : String) : Bool :=
  charsInclude s.data sub.data

/-- One multer-uploaded raw file as the upload service sees it, together
with oracle fields recording the outcome of the external media libraries
on this file (sharp re-encoding, ffmpeg screenshot setup and extraction). -/
structure UploadedFile where
  mimetype : String
  path : String
  size : Nat
  sharpOk : Bool
  ffmpegSetupOk : Bool
  ffmpegThumbOk : Bool

/-- A processed proof record as returned by the upload service. -/
structure Proof where
  type : String
  url : String
  thumbnail : Option String
  size : Nat
deriving DecidableEq, Repr

/-- Errors thrown by the upload service. -/
inductive UploadError where
  /-- processImage: sharp resize/re-encode threw. -/
  | processing
  /-- processFile: no image/video/audio MIME prefix matched
  (source message: Type de fichier non pris en charge). -/
  | unsupportedMedia
  /-- deleteFile: the URL contains none of the three folder markers
  (source message: Type de fichier non reconnu). -/
  | unrecognizedAssetKind
  /-- processVideo: the synchronous ffmpeg invocation threw, rejecting
  the promise. -/
  | videoSetup
deriving DecidableEq, Repr

/-- processImage: thumbnail plus optimized re-encode of the primary asset;
any sharp failure is rethrown. On success the proof points into /photos/. -/
def processImage (file : UploadedFile) : Except UploadError Proof :=
  if file.sharpOk then
    .ok { type := "photo"
        , url := "/uploads/photos/" ++ basename file.path
        , thumbnail := some ("/uploads/thumbnails/thumb_" ++ basename file.path)
        , size := file.size }
  else .error .processing

/-- processVideo: extracts one frame as thumbnail; if extraction fails the
promise still resolves with thumbnail null (degrade, not fail); only a
synchronous setup throw rejects. -/
def processVideo (file : UploadedFile) : Except UploadError Proof :=
  if file.ffmpegSetupOk then
    .ok { type := "video"
        , url := "/uploads/videos/" ++ basename file.path
        , thumbnail :=
            if file.ffmpegThumbOk
            then some ("/uploads/thumbnails/thumb_" ++ basename file.path ++ ".jpg")
            else none
        , size := file.size }
  else .error .videoSetup

/-- processAudio: no per-file processing, fixed shared placeholder thumbnail. -/
def processAudio (file : UploadedFile) : Except UploadError Proof :=
  .ok { type := "audio"
      , url := "/uploads/audio/" ++ basename file.path
      , thumbnail := some "/uploads/thumbnails/audio_default.png"
      , size := file.size }

/-- processFile: dispatch purely on the declared MIME type prefix. -/
def processFile (file : UploadedFile) : Except UploadError Proof :=
  if strStartsWith file.mimetype "image/" then processImage file
  else if strStartsWith file.mimetype "video/" then processVideo file
  else if strStartsWith file.mimetype "audio/" then processAudio file
  else .error .unsupportedMedia

/-- The sequential for-loop over req.files in createAlert: process each
file in order, pushing the results, aborting on the first thrown error. -/
def processFiles : List UploadedFile → Except UploadError (List Proof)
  | [] => .ok []
  | f :: fs =>
    match processFile f with
    | .error e => .error e
    | .ok p =>
      match processFiles fs with
      | .error e => .error e
      | .ok ps => .ok (p :: ps)

/-- The upload store: the set of paths currently existing on disk,
relative to the service root (uploads/photos/x.jpg, uploads/thumbnails/thumb_x.jpg, ...). -/
structure FS where
  files : List String
deriving DecidableEq, Repr

/-- fs.existsSync. -/
def FS.existsF (fs : FS) (p : String) : Bool :=
  fs.files.contains p

/-- fs.unlinkSync (removing every entry at that path). -/
def FS.unlink (fs : FS) (p : String) : FS :=
  ⟨fs.files.filter (fun q => q ≠ p)⟩

/-- deleteFile: locate the primary asset by which folder marker the URL
contains, best-effort delete the sibling thumbnail for photos and videos,
then delete the primary if it exists (returning whether it existed). -/
def deleteFile (fs : FS) (fileUrl : String) : Except UploadError (FS × Bool) :=
  let fileName := basename fileUrl
  if strIncludes fileUrl "/photos/" then
    let filePath := "uploads/photos/" ++ fileName
    let thumbnailPath := "uploads/thumbnails/thumb_" ++ fileName
    let fs1 := if fs.existsF thumbnailPath then fs.unlink thumbnailPath else fs
    if fs1.existsF filePath then .ok (fs1.unlink filePath, true) else .ok (fs1, false)
  else if strIncludes fileUrl "/videos/" then
    let filePath := "uploads/videos/" ++ fileName
    let thumbnailPath := "uploads/thumbnails/thumb_" ++ fileName ++ ".jpg"
    let fs1 := if fs.existsF thumbnailPath then fs.unlink thumbnailPath else fs
    if fs1.existsF filePath then .ok (fs1.unlink filePath, true) else .ok (fs1, false)
  else if strIncludes fileUrl "/audio/" then
    let filePath := "uploads/audio/" ++ fileName
    if fs.existsF filePath then .ok (fs.unlink filePath, true) else .ok (fs, false)
  else .error .unrecognizedAssetKind

/-- The request body of POST /alerts as destructured by the controller;
every field may be undefined. -/
structure RequestBody where
  serviceId : Option JSVal
  category : Option JSVal
  description : Option JSVal
  coordinates : Option JSVal
  address : Option JSVal
  isAnonymous : Option JSVal
  proofs : Option JSVal

/-- An incoming creation request: parsed body, the multer file array
(undefined when no multipart middleware ran), and the authenticated
principal subject (req.user.sub) when present. -/
structure CreateRequest where
  body : RequestBody
  files : Option (List UploadedFile)
  user : Option String

/-- The proofs value assembled by createAlert: either a list of processed
Proof records (possibly empty) or the inline body.proofs value passed
through verbatim. -/
inductive ProofList where
  | records (ps : List Proof)
  | inline (v : JSVal)

/-- The alertData object handed to alertService.createAlert. -/
structure AlertData where
  serviceId : Option JSVal
  category : Option JSVal
  description : Option JSVal
  coordinates : JSVal
  address : Option JSVal
  isAnonymous : Bool
  proofs : ProofList

/-- The stored GeoJSON location of an alert. -/
structure GeoPoint where
  type : String
  coordinates : List ℚ

/-- A persisted Alert record as returned by the alert service. -/
structure StoredAlert where
  serviceId : Option JSVal
  category : Option JSVal
  description : Option JSVal
  location : GeoPoint
  address : Option JSVal
  isAnonymous : Bool
  citizenId : Option String
  proofs : ProofList
  status : String

/-- What a call to the createAlert controller produced: the HTTP status
code, the created alert when one came back, and the alertData argument
of the alertService.createAlert invocation when that call was reached
(none when persistence was never invoked). -/
structure ControllerOutcome where
  status : Nat
  alert : Option StoredAlert
  serviceCall : Option AlertData

/-- The coordinates guard of createAlert:
not coordinates, or not Array.isArray(coordinates), or length differs from 2. -/
def coordsInvalid : Option JSVal → Bool
  | none => true
  | some v => !jsTruthyV v || !isArr v || arrLen v != 2

/-- isAnonymous strictly equals the string true or the boolean true. -/
def isAnonTrue : Option JSVal → Bool
  | some (.str s) => s == "true"
  | some (.bool b) => b
  | _ => false

/-- The inline-proofs guard: req.body.proofs truthy, an array, non-empty. -/
def inlineProofsOk : Option JSVal → Bool
  | none => false
  | some v => jsTruthyV v && isArr v && arrLen v != 0

/-- The const alertData object literal of createAlert: request fields
passed through, isAnonymous normalized to a boolean, proofs as resolved. -/
def mkAlertData (req : CreateRequest) (coords : JSVal) (proofs : ProofList) : AlertData :=
  { serviceId := req.body.serviceId
  , category := req.body.category
  , description := req.body.description
  , coordinates := coords
  , address := req.body.address
  , isAnonymous := isAnonTrue req.body.isAnonymous
  , proofs := proofs }

/-- The tail of createAlert once coordinates are validated and proofs
resolved: build alertData, call the service, map success to 201 and a
thrown error to the catch-all 400. -/
def runService (svc : AlertData → Option String → Except String StoredAlert)
    (req : CreateRequest) (coords : JSVal) (proofs : ProofList) : ControllerOutcome :=
  match svc (mkAlertData req coords proofs) req.user with
  | .ok a => { status := 201, alert := some a, serviceCall := some (mkAlertData req coords proofs) }
  | .error _ => { status := 400, alert := none, serviceCall := some (mkAlertData req coords proofs) }

/-- The createAlert controller, parameterized by the alert service it
delegates persistence to. Any error thrown while processing uploaded
files lands in the catch-all 400 before the service is invoked. -/
def createAlert (svc : AlertData → Option String → Except String StoredAlert)
    (req : CreateRequest) : ControllerOutcome :=
  match req.body.coordinates with
  | none => { status := 400, alert := none, serviceCall := none }
  | some coords =>
    if !jsTruthyV coords || !isArr coords || arrLen coords != 2 then
      { status := 400, alert := none, serviceCall := none }
    else
      match req.files with
      | some (f :: fs) =>
        match processFiles (f :: fs) with
        | .error _ => { status := 400, alert := none, serviceCall := none }
        | .ok ps => runService svc req coords (.records ps)
      | _ =>
        if inlineProofsOk req.body.proofs then
          match req.body.proofs with
          | some pv => runService svc req coords (.inline pv)
          | none => runService svc req coords (.records [])
        else runService svc req coords (.records [])

/-- Digits of a decimal literal to a natural number; none on a non-digit
or on the empty list. -/
def natOfDigits : List Char → Option Nat
  | [] => none
  | cs => cs.foldl
      (fun acc c =>
        match acc with
        | none => none
        | some n => if c.isDigit then some (n * 10 + (c.toNat - 48)) else none)
      (some 0)

/-- Modelled from the spec: numeric coercion of a decimal string
(optional sign, integer part, optional fraction); none when the string
is not a number. -/
def strToNum : String → Option ℚ := fun s =>
  let signed : ℚ × List Char :=
    match s.data with
    | '-' :: cs => (-1, cs)
    | '+' :: cs => (1, cs)
    | cs => (1, cs)
  let intPart := signed.2.takeWhile (fun c => c ≠ '.')
  let rest := signed.2.dropWhile (fun c => c ≠ '.')
  match rest with
  | [] =>
    match natOfDigits intPart with
    | some n => some (signed.1 * n)
    | none => none
  | _ :: frac =>
    match natOfDigits intPart, natOfDigits frac with
    | some n, some f => some (signed.1 * (n + (f : ℚ) / (10 : ℚ) ^ frac.length))
    | _, _ => none

/-- Modelled from the spec: coercion of one JS value to a number, as the
persistence layer casts coordinate entries. -/
def toNumber : JSVal → Option ℚ
  | .num q => some q
  | .bool b => some (if b then 1 else 0)
  | .null => some 0
  | .str s => strToNum s
  | .arr _ => none

/-- Modelled from the spec: a coordinates value coercible to exactly two
numbers. -/
def coerceCoords : JSVal → Option (ℚ × ℚ)
  | .arr [a, b] =>
    match toNumber a, toNumber b with
    | some x, some y => some (x, y)
    | _, _ => none
  | _ => none

/-- Modelled from the spec: alertService.createAlert
(src/services/alert.service.js is not among the sources). Per the spec,
ingestion fails with ValidationError when the coordinates are not
coercible to two numbers, before anything is persisted; on success it
persists the Alert with location as a GeoJSON Point keeping
longitude-before-latitude order, initial status pending, and returns the
full stored record. A returned record means persistence was invoked; a
thrown ValidationError means it was not. -/
def alertServiceCreateAlert (d : AlertData) (citizenId : Option String) :
    Except String StoredAlert :=
  match coerceCoords d.coordinates with
  | none => .error "ValidationError"
  | some (lon, lat) =>
    .ok { serviceId := d.serviceId
        , category := d.category
        , description := d.description
        , location := { type := "Point", coordinates := [lon, lat] }
        , address := d.address
        , isAnonymous := d.isAnonymous
        , citizenId := citizenId
        , proofs := d.proofs
        , status := "pending" }

/-- The body and service-key header of a POST /alerts/webhook/status
request; the four body fields may each be undefined. -/
structure StatusRequest where
  alertId : Option JSVal
  statusField : Option JSVal
  comment : Option JSVal
  updatedBy : Option JSVal
  serviceKeyHeader : Option String

/-- What a call to the updateAlertStatus controller produced: the HTTP
status code and whether alertService.updateAlertStatus was invoked. -/
structure StatusOutcome where
  status : Nat
  serviceCalled : Bool
deriving DecidableEq, Repr

/-- JS truthiness of a possibly-undefined value. -/
def jsTruthy : Option JSVal → Bool
  | none => false
  | some v => jsTruthyV v

/-- The updateAlertStatus webhook controller, parameterized by the
configured secret (process.env.SERVICE_API_KEY, undefined when unset)
and by the outcome of the alert service call it delegates to. The
x-service-key header is checked first: a falsy header or a strict
mismatch with the configured secret yields 401 before any field is
validated or any alert is read. -/
def updateAlertStatus (svc : Except String Unit) (envServiceApiKey : Option String)
    (req : StatusRequest) : StatusOutcome :=
  let headerFalsy : Bool :=
    match req.serviceKeyHeader with
    | none => true
    | some s => s == ""
  if headerFalsy || req.serviceKeyHeader != envServiceApiKey then
    { status := 401, serviceCalled := false }
  else if !jsTruthy req.alertId || !jsTruthy req.statusField then
    { status := 400, serviceCalled := false }
  else
    match svc with
    | .ok _ => { status := 200, serviceCalled := true }
    | .error _ => { status := 400, serviceCalled := true }

/-- The query string of GET /alerts/nearby; each parameter is an
undefined-able string. -/
structure NearbyQuery where
  longitude : Option String
  latitude : Option String
  distance : Option String

/-- What a call to the getAlertsNearby controller produced: either the
400 missing-coordinates response, or the service query with its center
coordinates (in the order passed) and radius. -/
inductive NearbyOutcome where
  | badRequest
  | queried (coordinates : List ℚ) (maxDistance : ℚ)
deriving DecidableEq, Repr

/-- The getAlertsNearby controller, parameterized by the numeric parsers
(parseFloat and parseInt of the host language). Falsy longitude or
latitude yields 400; otherwise the service is queried at
[parseFloat longitude, parseFloat latitude] with radius
parseInt distance when distance is truthy, 5000 meters otherwise. -/
def getAlertsNearby (parseFloatJs parseIntJs : String → ℚ) (q : NearbyQuery) :
    NearbyOutcome :=
  match q.longitude, q.latitude with
  | some lon, some lat =>
    if lon == "" || lat == "" then .badRequest
    else
      let maxDistance : ℚ :=
        match q.distance with
        | some d => if d == "" then 5000 else parseIntJs d
        | none => 5000
      .queried [parseFloatJs lon, parseFloatJs lat] maxDistance
  | _, _ => .badRequest

/-- A concrete uploaded image file used to instantiate the theorems
below on closed inputs. -/
def sampleImageFile : UploadedFile :=
  { mimetype := "image/jpeg", path := "uploads/photos/a.jpg", size := 7
  , sharpOk := true, ffmpegSetupOk := true, ffmpegThumbOk := true }

/-- A concrete creation request with one uploaded image file and an
inline proofs array. -/
def sampleFileReq : CreateRequest :=
  { body := { serviceId := none, category := none, description := none
            , coordinates := some (.arr [.num 2, .num 48])
            , address := none, isAnonymous := none
            , proofs := some (.arr [.str "inline"]) }
  , files := some [sampleImageFile], user := some "u1" }

/-- A concrete creation request whose coordinates are a two-element
array of non-numeric strings. -/
def sampleBadCoordsReq : CreateRequest :=
  { body := { serviceId := none, category := none, description := none
            , coordinates := some (.arr [.str "a", .str "b"])
            , address := none, isAnonymous := none, proofs := none }
  , files := none, user := some "u2" }

/-- A concrete JSON creation request with numeric coordinates and no
files. -/
def sampleJsonReq : CreateRequest :=
  { body := { serviceId := some (.str "s1"), category := some (.str "pothole")
            , description := some (.str "d")
            , coordinates := some (.arr [.num (47 / 20), .num (977 / 20)])
            , address := none, isAnonymous := some (.str "true"), proofs := none }
  , files := none, user := some "u3" }

/-- A concrete uploaded video file whose frame extraction fails. -/
def sampleVideoFile : UploadedFile :=
  { mimetype := "video/mp4", path := "uploads/videos/v.mp4", size := 9
  , sharpOk := true, ffmpegSetupOk := true, ffmpegThumbOk := false }

/-- A concrete creation request carrying only the failing-thumbnail
video file. -/
def sampleVideoReq : CreateRequest :=
  { body := { serviceId := none, category := none, description := none
            , coordinates := some (.arr [.num 2, .num 48])
            , address := none, isAnonymous := none, proofs := none }
  , files := some [sampleVideoFile], user := some "u4" }

/-- A concrete uploaded image file whose sharp re-encode fails. -/
def sampleBrokenImageFile : UploadedFile :=
  { mimetype := "image/png", path := "uploads/photos/b.png", size := 3
  , sharpOk := false, ffmpegSetupOk := true, ffmpegThumbOk := true }

/-- A concrete creation request with valid coordinates whose only file
fails processing. -/
def sampleBrokenFileReq : CreateRequest :=
  { body := { serviceId := none, category := none, description := none
            , coordinates := some (.arr [.num 2, .num 48])
            , address := none, isAnonymous := none
            , proofs := some (.arr [.str "inline"]) }
  , files := some [sampleBrokenImageFile], user := some "u5" }

/-- A concrete uploaded audio file. -/
def sampleAudioFile : UploadedFile :=
  { mimetype := "audio/mpeg", path := "uploads/audio/s.mp3", size := 5
  , sharpOk := true, ffmpegSetupOk := true, ffmpegThumbOk := true }

/-- A concrete uploaded file with an unsupported MIME type. -/
def samplePdfFile : UploadedFile :=
  { mimetype := "application/pdf", path := "uploads/photos/x.pdf", size := 11
  , sharpOk := true, ffmpegSetupOk := true, ffmpegThumbOk := true }

/-- A concrete upload store holding a photo, its thumbnail, a video,
its thumbnail, and an audio file. -/
def sampleFS : FS :=
  ⟨[ "uploads/photos/a.jpg", "uploads/thumbnails/thumb_a.jpg"
   , "uploads/videos/v.mp4", "uploads/thumbnails/thumb_v.mp4.jpg"
   , "uploads/audio/s.mp3" ]⟩

/-- Whatever the alert service replies, runService invokes it with the
alertData assembled from the request, the validated coordinates and the
resolved proofs. -/
theorem runService_serviceCall
    (svc : AlertData → Option String → Except String StoredAlert)
    (req : CreateRequest) (coords : JSVal) (pl : ProofList) :
    (runService svc req coords pl).serviceCall = some (mkAlertData req coords pl) := by
  unfold runService
  cases svc (mkAlertData req coords pl) req.user <;> rfl

/-- When the coordinates do not coerce to two numbers, the modelled
alert service throws ValidationError and runService answers 400 with no
created alert. -/
theorem runService_coerce_fail (req : CreateRequest) (coords : JSVal) (pl : ProofList)
    (h : coerceCoords coords = none) :
    runService alertServiceCreateAlert req coords pl =
      { status := 400, alert := none, serviceCall := some (mkAlertData req coords pl) } := by
  have hs : alertServiceCreateAlert (mkAlertData req coords pl) req.user =
      Except.error "ValidationError" := by
    unfold alertServiceCreateAlert
    simp only [mkAlertData, h]
  unfold runService
  rw [hs]

/-- When the coordinates coerce to the pair (lon, lat), the modelled
alert service persists and runService answers 201 with the stored
record, whose location is the GeoJSON point [lon, lat]. -/
theorem runService_coerce_ok (req : CreateRequest) (coords : JSVal) (pl : ProofList)
    (lon lat : ℚ) (h : coerceCoords coords = some (lon, lat)) :
    runService alertServiceCreateAlert req coords pl =
      { status := 201
      , alert := some
          { serviceId := req.body.serviceId
          , category := req.body.category
          , description := req.body.description
          , location := { type := "Point", coordinates := [lon, lat] }
          , address := req.body.address
          , isAnonymous := isAnonTrue req.body.isAnonymous
          , citizenId := req.user
          , proofs := pl
          , status := "pending" }
      , serviceCall := some (mkAlertData req coords pl) } := by
  have hs : alertServiceCreateAlert (mkAlertData req coords pl) req.user =
      Except.ok
        { serviceId := req.body.serviceId
        , category := req.body.category
        , description := req.body.description
        , location := { type := "Point", coordinates := [lon, lat] }
        , address := req.body.address
        , isAnonymous := isAnonTrue req.body.isAnonymous
        , citizenId := req.user
        , proofs := pl
        , status := "pending" } := by
    unfold alertServiceCreateAlert
    simp only [mkAlertData, h]
  unfold runService
  rw [hs]

/-- A coordinates value that coerces to two numbers passes the
controller's shape guard. -/
theorem coerceCoords_guard (v : JSVal) (lon lat : ℚ)
    (h : coerceCoords v = some (lon, lat)) :
    (!jsTruthyV v || !isArr v || arrLen v != 2) = false := by
  cases v with
  | arr xs =>
    rcases xs with _ | ⟨a, _ | ⟨b, _ | ⟨c, rest⟩⟩⟩
    · simp [coerceCoords] at h
    · simp [coerceCoords] at h
    · rfl
    · simp [coerceCoords] at h
  | str s => simp [coerceCoords] at h
  | num q => simp [coerceCoords] at h
  | bool b => simp [coerceCoords] at h
  | null => simp [coerceCoords] at h

/-- C1: in createAlert, proof sources are resolved in strict precedence
order: with at least one uploaded file present, the processFile results
of all uploaded files form the proof list and any inline body.proofs is
discarded; otherwise a truthy non-empty proofs array is used verbatim;
otherwise the proof list is empty. -/
theorem createAlert_proof_source_precedence
    (svc : AlertData → Option String → Except String StoredAlert)
    (req : CreateRequest) (coords : JSVal)
    (hc : req.body.coordinates = some coords)
    (hguard : (!jsTruthyV coords || !isArr coords || arrLen coords != 2) = false) :
    (∀ f fs ps, req.files = some (f :: fs) → processFiles (f :: fs) = Except.ok ps →
       ∃ d, (createAlert svc req).serviceCall = some d ∧ d.proofs = ProofList.records ps)
  ∧ (∀ pv, (req.files = none ∨ req.files = some []) → req.body.proofs = some pv →
       inlineProofsOk req.body.proofs = true →
       ∃ d, (createAlert svc req).serviceCall = some d ∧ d.proofs = ProofList.inline pv)
  ∧ ((req.files = none ∨ req.files = some []) → inlineProofsOk req.body.proofs = false →
       ∃ d, (createAlert svc req).serviceCall = some d ∧ d.proofs = ProofList.records []) := by
  refine ⟨?_, ?_, ?_⟩
  · intro f fs ps hf hp
    refine ⟨mkAlertData req coords (.records ps), ?_, rfl⟩
    rw [createAlert, hc]
    simp only [hguard, Bool.false_eq_true, if_false, hf, hp]
    exact runService_serviceCall svc req coords (.records ps)
  · intro pv hfiles hpv hok
    refine ⟨mkAlertData req coords (.inline pv), ?_, rfl⟩
    rw [createAlert, hc]
    rw [hpv] at hok
    rcases hfiles with h | h <;>
      simp only [hguard, Bool.false_eq_true, if_false, h, hpv, hok, if_true] <;>
      exact runService_serviceCall svc req coords (.inline pv)
  · intro hfiles hok
    refine ⟨mkAlertData req coords (.records []), ?_, rfl⟩
    rw [createAlert, hc]
    rcases hfiles with h | h <;>
      simp only [hguard, Bool.false_eq_true, if_false, h, hok] <;>
      exact runService_serviceCall svc req coords (.records [])

/-- Concrete instantiation of the proof-source precedence theorem: a
request carrying one image file and an inline proofs array uses the
processed file and discards the inline value. -/
theorem createAlert_proof_source_precedence_witness :
    ∃ d, (createAlert alertServiceCreateAlert sampleFileReq).serviceCall = some d ∧
      d.proofs = ProofList.records
        [{ type := "photo", url := "/uploads/photos/a.jpg"
         , thumbnail := some "/uploads/thumbnails/thumb_a.jpg", size := 7 }] := by
  exact (createAlert_proof_source_precedence alertServiceCreateAlert sampleFileReq
    (.arr [.num 2, .num 48]) rfl rfl).1 sampleImageFile [] _ rfl (by rfl)

/-- Once the coordinate guard has passed, createAlert either aborts with
the 400 no-persistence outcome because some uploaded file failed
processing, or hands some resolved proof list to runService. -/
theorem createAlert_cases (svc : AlertData → Option String → Except String StoredAlert)
    (req : CreateRequest) (coords : JSVal)
    (hc : req.body.coordinates = some coords)
    (hg : (!jsTruthyV coords || !isArr coords || arrLen coords != 2) = false) :
    (∃ f l e, req.files = some (f :: l) ∧ processFiles (f :: l) = Except.error e ∧
       createAlert svc req = { status := 400, alert := none, serviceCall := none }) ∨
    ∃ pl, createAlert svc req = runService svc req coords pl := by
  obtain ⟨⟨sid, cat, desc, co, addr, anon, prf⟩, files, user⟩ := req
  change co = some coords at hc
  subst hc
  simp only [createAlert, hg, Bool.false_eq_true, if_false]
  rcases files with _ | (_ | ⟨f, l⟩)
  · rcases prf with _ | pv
    · exact Or.inr ⟨.records [], rfl⟩
    · by_cases hio : inlineProofsOk (some pv) = true
      · rw [if_pos hio]
        exact Or.inr ⟨.inline pv, rfl⟩
      · rw [if_neg hio]
        exact Or.inr ⟨.records [], rfl⟩
  · rcases prf with _ | pv
    · exact Or.inr ⟨.records [], rfl⟩
    · by_cases hio : inlineProofsOk (some pv) = true
      · rw [if_pos hio]
        exact Or.inr ⟨.inline pv, rfl⟩
      · rw [if_neg hio]
        exact Or.inr ⟨.records [], rfl⟩
  · rcases hp : processFiles (f :: l) with e | ps
    · exact Or.inl ⟨f, l, e, rfl, hp, by simp only [hp]⟩
    · exact Or.inr ⟨.records ps, by simp only [hp]⟩

/-- C2: a creation request whose coordinates are absent, not an array,
not a two-element array, or not coercible to two numbers fails with the
400 ValidationError path and nothing is persisted: the controller guard
rejects the first three shapes before calling the service, and the
modelled service throws ValidationError on non-coercible entries before
storing, so no alert record ever comes back. -/
theorem createAlert_rejects_bad_coordinates (req : CreateRequest)
    (h : req.body.coordinates = none ∨
      ∃ v, req.body.coordinates = some v ∧
        (isArr v = false ∨ arrLen v ≠ 2 ∨ coerceCoords v = none)) :
    (createAlert alertServiceCreateAlert req).status = 400 ∧
    (createAlert alertServiceCreateAlert req).alert = none := by
  rcases h with h | ⟨v, hv, hcase⟩
  · obtain ⟨⟨sid, cat, desc, co, addr, anon, prf⟩, files, user⟩ := req
    change co = none at h
    subst h
    exact ⟨rfl, rfl⟩
  · by_cases hg : (!jsTruthyV v || !isArr v || arrLen v != 2) = true
    · obtain ⟨⟨sid, cat, desc, co, addr, anon, prf⟩, files, user⟩ := req
      change co = some v at hv
      subst hv
      simp only [createAlert]
      rw [if_pos hg]
      exact ⟨rfl, rfl⟩
    · have hg2 : (!jsTruthyV v || !isArr v || arrLen v != 2) = false := by
        revert hg
        cases !jsTruthyV v || !isArr v || arrLen v != 2 <;> simp
      have hcoerce : coerceCoords v = none := by
        rcases hcase with h1 | h1 | h1
        · rw [h1] at hg2
          simp at hg2
        · rw [bne_iff_ne.mpr h1] at hg2
          simp at hg2
        · exact h1
      rcases createAlert_cases alertServiceCreateAlert req v hv hg2 with
        ⟨f, l, e, hfe, hpe, hout⟩ | ⟨pl, hout⟩
      · rw [hout]
        exact ⟨rfl, rfl⟩
      · rw [hout, runService_coerce_fail req v pl hcoerce]
        exact ⟨rfl, rfl⟩

/-- Concrete instantiation of the bad-coordinates theorem: a two-element
array of non-numeric strings passes the shape guard but is rejected with
400 and nothing is persisted. -/
theorem createAlert_rejects_bad_coordinates_witness :
    (sampleBadCoordsReq.body.coordinates = some (.arr [.str "a", .str "b"]) ∧
     coerceCoords (.arr [.str "a", .str "b"]) = none) ∧
    (createAlert alertServiceCreateAlert sampleBadCoordsReq).status = 400 ∧
    (createAlert alertServiceCreateAlert sampleBadCoordsReq).alert = none :=
  ⟨⟨rfl, rfl⟩, createAlert_rejects_bad_coordinates sampleBadCoordsReq
     (Or.inr ⟨.arr [.str "a", .str "b"], rfl, Or.inr (Or.inr rfl)⟩)⟩

/-- C9: if processing any uploaded proof file throws, the whole creation
fails with 400 and alertService.createAlert is never invoked, so no
partial alert is persisted. -/
theorem createAlert_atomic_on_processing_failure
    (svc : AlertData → Option String → Except String StoredAlert)
    (req : CreateRequest) (l : List UploadedFile) (e : UploadError)
    (hf : req.files = some l) (hp : processFiles l = Except.error e) :
    (createAlert svc req).status = 400 ∧ (createAlert svc req).serviceCall = none := by
  obtain ⟨⟨sid, cat, desc, co, addr, anon, prf⟩, files, user⟩ := req
  change files = some l at hf
  subst hf
  rcases l with _ | ⟨f, l'⟩
  · exact Except.noConfusion (show Except.ok ([] : List Proof) = Except.error e from hp)
  · rcases co with _ | v
    · simp [createAlert]
    · by_cases hg : (!jsTruthyV v || !isArr v || arrLen v != 2) = true
      · simp [createAlert, hg]
      · have hgf : (!jsTruthyV v || !isArr v || arrLen v != 2) = false := by
          revert hg
          cases !jsTruthyV v || !isArr v || arrLen v != 2 <;> simp
        simp [createAlert, hgf, hp]

/-- When the guard passes and all uploaded files process successfully,
createAlert hands exactly the processed records to the service. -/
theorem createAlert_files_ok (svc : AlertData → Option String → Except String StoredAlert)
    (req : CreateRequest) (coords : JSVal) (f : UploadedFile) (l : List UploadedFile)
    (ps : List Proof)
    (hc : req.body.coordinates = some coords)
    (hg : (!jsTruthyV coords || !isArr coords || arrLen coords != 2) = false)
    (hf : req.files = some (f :: l)) (hp : processFiles (f :: l) = Except.ok ps) :
    createAlert svc req = runService svc req coords (.records ps) := by
  obtain ⟨⟨sid, cat, desc, co, addr, anon, prf⟩, files, user⟩ := req
  change co = some coords at hc
  subst hc
  change files = some (f :: l) at hf
  subst hf
  simp only [createAlert, hg, Bool.false_eq_true, if_false, hp]

/-- C3: for every valid coordinate pair [lon, lat], with every present
uploaded file processing successfully, alert creation succeeds (201) and
the stored location round-trips exactly as the GeoJSON point
[lon, lat], longitude before latitude, unchanged from the request body. -/
theorem createAlert_location_roundtrip (req : CreateRequest) (lon lat : ℚ)
    (hc : req.body.coordinates = some (.arr [.num lon, .num lat]))
    (hlon1 : -180 ≤ lon) (hlon2 : lon ≤ 180) (hlat1 : -90 ≤ lat) (hlat2 : lat ≤ 90)
    (hfiles : ∀ l, req.files = some l → ∃ ps, processFiles l = Except.ok ps) :
    (createAlert alertServiceCreateAlert req).status = 201 ∧
    ∃ a, (createAlert alertServiceCreateAlert req).alert = some a ∧
      a.location.type = "Point" ∧ a.location.coordinates = [lon, lat] := by
  have hcoerce : coerceCoords (.arr [.num lon, .num lat]) = some (lon, lat) := rfl
  have hg : (!jsTruthyV (.arr [.num lon, .num lat]) || !isArr (.arr [.num lon, .num lat])
      || arrLen (.arr [.num lon, .num lat]) != 2) = false := rfl
  rcases createAlert_cases alertServiceCreateAlert req _ hc hg with
    ⟨f, l, e, hfe, hpe, hout⟩ | ⟨pl, hout⟩
  · obtain ⟨ps, hps⟩ := hfiles (f :: l) hfe
    rw [hps] at hpe
    exact Except.noConfusion hpe
  · rw [hout, runService_coerce_ok req _ pl lon lat hcoerce]
    exact ⟨rfl, _, rfl, rfl, rfl⟩

/-- Concrete instantiation of the location round-trip theorem at the
pair [2.35, 48.85] submitted as JSON without files. -/
theorem createAlert_location_roundtrip_witness :
    ((-180 : ℚ) ≤ 47 / 20 ∧ (47 : ℚ) / 20 ≤ 180 ∧
     (-90 : ℚ) ≤ 977 / 20 ∧ (977 : ℚ) / 20 ≤ 90) ∧
    (createAlert alertServiceCreateAlert sampleJsonReq).status = 201 ∧
    ∃ a, (createAlert alertServiceCreateAlert sampleJsonReq).alert = some a ∧
      a.location.type = "Point" ∧ a.location.coordinates = [47 / 20, 977 / 20] :=
  ⟨⟨by norm_num, by norm_num, by norm_num, by norm_num⟩,
   createAlert_location_roundtrip sampleJsonReq (47 / 20) (977 / 20) rfl
     (by norm_num) (by norm_num) (by norm_num) (by norm_num)
     (fun l h => Option.noConfusion h)⟩

/-- C4: a video file whose frame extraction fails still processes
successfully into a proof with type video, the primary asset url and
size, and thumbnail null; a creation carrying that file succeeds with
that degraded proof stored. -/
theorem processVideo_thumbnail_degrade
    (f : UploadedFile) (req : CreateRequest) (coords : JSVal) (lon lat : ℚ)
    (himg : strStartsWith f.mimetype "image/" = false)
    (hvid : strStartsWith f.mimetype "video/" = true)
    (hsetup : f.ffmpegSetupOk = true) (hthumb : f.ffmpegThumbOk = false)
    (hfiles : req.files = some [f])
    (hc : req.body.coordinates = some coords)
    (hcoerce : coerceCoords coords = some (lon, lat)) :
    processFile f = Except.ok
      { type := "video", url := "/uploads/videos/" ++ basename f.path
      , thumbnail := none, size := f.size }
    ∧ (createAlert alertServiceCreateAlert req).status = 201
    ∧ ∃ a, (createAlert alertServiceCreateAlert req).alert = some a ∧
        a.proofs = ProofList.records
          [{ type := "video", url := "/uploads/videos/" ++ basename f.path
           , thumbnail := none, size := f.size }] := by
  have hpf : processFile f = Except.ok
      { type := "video", url := "/uploads/videos/" ++ basename f.path
      , thumbnail := none, size := f.size } := by
    rw [processFile, if_neg (by simp [himg]), if_pos hvid, processVideo, if_pos hsetup]
    simp [hthumb]
  have hps : processFiles [f] = Except.ok
      [{ type := "video", url := "/uploads/videos/" ++ basename f.path
       , thumbnail := none, size := f.size }] := by
    rw [processFiles, hpf]
    rfl
  have hg := coerceCoords_guard coords lon lat hcoerce
  rw [createAlert_files_ok alertServiceCreateAlert req coords f [] _ hc hg hfiles hps,
    runService_coerce_ok req coords _ lon lat hcoerce]
  exact ⟨hpf, rfl, _, rfl, rfl⟩

/-- Concrete instantiation of the degrade-not-fail theorem: a video/mp4
file with failing frame extraction inside a valid creation request. -/
theorem processVideo_thumbnail_degrade_witness :
    (strStartsWith sampleVideoFile.mimetype "video/" = true ∧
     sampleVideoFile.ffmpegThumbOk = false) ∧
    processFile sampleVideoFile = Except.ok
      { type := "video", url := "/uploads/videos/v.mp4", thumbnail := none, size := 9 }
    ∧ (createAlert alertServiceCreateAlert sampleVideoReq).status = 201
    ∧ ∃ a, (createAlert alertServiceCreateAlert sampleVideoReq).alert = some a ∧
        a.proofs = ProofList.records
          [{ type := "video", url := "/uploads/videos/v.mp4"
           , thumbnail := none, size := 9 }] :=
  ⟨⟨rfl, rfl⟩, processVideo_thumbnail_degrade sampleVideoFile sampleVideoReq
     (.arr [.num 2, .num 48]) 2 48 rfl rfl rfl rfl rfl rfl rfl⟩

/-- Concrete instantiation of the atomicity theorem: a request with
valid coordinates whose single image file fails sharp processing yields
400 with the service never invoked. -/
theorem createAlert_atomic_on_processing_failure_witness :
    (sampleBrokenFileReq.files = some [sampleBrokenImageFile] ∧
     processFiles [sampleBrokenImageFile] = Except.error UploadError.processing) ∧
    (createAlert alertServiceCreateAlert sampleBrokenFileReq).status = 400 ∧
    (createAlert alertServiceCreateAlert sampleBrokenFileReq).serviceCall = none :=
  ⟨⟨rfl, by rfl⟩, createAlert_atomic_on_processing_failure alertServiceCreateAlert
     sampleBrokenFileReq [sampleBrokenImageFile] UploadError.processing rfl (by rfl)⟩

/-- A string starts with itself when extended on the right. -/
theorem strStartsWith_append (a b : String) : strStartsWith (a ++ b) a = true := by
  unfold strStartsWith
  rw [String.data_append, List.isPrefixOf_iff_prefix]
  exact List.prefix_append a.data b.data

/-- C5: processFile dispatches purely on the declared MIME type's
prefix: image yields a photo proof under /photos/, video a video proof
under /videos/, audio an audio proof under /audio/, anything else the
UnsupportedMediaError; and every proof it produces has a type matching
the storage sub-folder its url resolves into. -/
theorem processFile_mime_dispatch (f : UploadedFile) :
    (strStartsWith f.mimetype "image/" = true → f.sharpOk = true →
       processFile f = Except.ok
         { type := "photo", url := "/uploads/photos/" ++ basename f.path
         , thumbnail := some ("/uploads/thumbnails/thumb_" ++ basename f.path)
         , size := f.size })
  ∧ (strStartsWith f.mimetype "image/" = false → strStartsWith f.mimetype "video/" = true →
       f.ffmpegSetupOk = true →
       processFile f = Except.ok
         { type := "video", url := "/uploads/videos/" ++ basename f.path
         , thumbnail := if f.ffmpegThumbOk
             then some ("/uploads/thumbnails/thumb_" ++ basename f.path ++ ".jpg") else none
         , size := f.size })
  ∧ (strStartsWith f.mimetype "image/" = false → strStartsWith f.mimetype "video/" = false →
       strStartsWith f.mimetype "audio/" = true →
       processFile f = Except.ok
         { type := "audio", url := "/uploads/audio/" ++ basename f.path
         , thumbnail := some "/uploads/thumbnails/audio_default.png", size := f.size })
  ∧ (strStartsWith f.mimetype "image/" = false → strStartsWith f.mimetype "video/" = false →
       strStartsWith f.mimetype "audio/" = false →
       processFile f = Except.error UploadError.unsupportedMedia)
  ∧ (∀ p, processFile f = Except.ok p →
       (p.type = "photo" ∧ strStartsWith p.url "/uploads/photos/" = true) ∨
       (p.type = "video" ∧ strStartsWith p.url "/uploads/videos/" = true) ∨
       (p.type = "audio" ∧ strStartsWith p.url "/uploads/audio/" = true)) := by
  refine ⟨?_, ?_, ?_, ?_, ?_⟩
  · intro hi hs
    rw [processFile, if_pos hi, processImage, if_pos hs]
  · intro hi hv hsu
    rw [processFile, if_neg (by simp [hi]), if_pos hv, processVideo, if_pos hsu]
  · intro hi hv ha
    rw [processFile, if_neg (by simp [hi]), if_neg (by simp [hv]), if_pos ha, processAudio]
  · intro hi hv ha
    rw [processFile, if_neg (by simp [hi]), if_neg (by simp [hv]), if_neg (by simp [ha])]
  · intro p hp
    rw [processFile] at hp
    by_cases hi : strStartsWith f.mimetype "image/" = true
    · rw [if_pos hi, processImage] at hp
      by_cases hs : f.sharpOk = true
      · rw [if_pos hs] at hp
        injection hp with h
        subst h
        exact Or.inl ⟨rfl, strStartsWith_append "/uploads/photos/" (basename f.path)⟩
      · rw [if_neg hs] at hp
        exact Except.noConfusion hp
    · rw [if_neg hi] at hp
      by_cases hv : strStartsWith f.mimetype "video/" = true
      · rw [if_pos hv, processVideo] at hp
        by_cases hsu : f.ffmpegSetupOk = true
        · rw [if_pos hsu] at hp
          injection hp with h
          subst h
          exact Or.inr (Or.inl ⟨rfl, strStartsWith_append "/uploads/videos/" (basename f.path)⟩)
        · rw [if_neg hsu] at hp
          exact Except.noConfusion hp
      · rw [if_neg hv] at hp
        by_cases ha : strStartsWith f.mimetype "audio/" = true
        · rw [if_pos ha, processAudio] at hp
          injection hp with h
          subst h
          exact Or.inr (Or.inr ⟨rfl, strStartsWith_append "/uploads/audio/" (basename f.path)⟩)
        · rw [if_neg ha] at hp
          exact Except.noConfusion hp

/-- Concrete instantiation of the MIME dispatch theorem on an image, a
video, an audio file and an unsupported PDF. -/
theorem processFile_mime_dispatch_witness :
    processFile sampleImageFile = Except.ok
      { type := "photo", url := "/uploads/photos/a.jpg"
      , thumbnail := some "/uploads/thumbnails/thumb_a.jpg", size := 7 }
  ∧ processFile sampleVideoFile = Except.ok
      { type := "video", url := "/uploads/videos/v.mp4", thumbnail := none, size := 9 }
  ∧ processFile sampleAudioFile = Except.ok
      { type := "audio", url := "/uploads/audio/s.mp3"
      , thumbnail := some "/uploads/thumbnails/audio_default.png", size := 5 }
  ∧ processFile samplePdfFile = Except.error UploadError.unsupportedMedia :=
  ⟨(processFile_mime_dispatch sampleImageFile).1 rfl rfl,
   (processFile_mime_dispatch sampleVideoFile).2.1 rfl rfl rfl,
   (processFile_mime_dispatch sampleAudioFile).2.2.1 rfl rfl rfl,
   (processFile_mime_dispatch samplePdfFile).2.2.2.1 rfl rfl rfl⟩

/-- A path no longer exists after its own unlink. -/
theorem existsF_unlink_self (fs : FS) (p : String) : (fs.unlink p).existsF p = false := by
  simp [FS.unlink, FS.existsF]

/-- Unlinking never makes a missing path appear. -/
theorem existsF_unlink_false (fs : FS) (x q : String) (h : fs.existsF q = false) :
    (fs.unlink x).existsF q = false := by
  simp [FS.unlink, FS.existsF] at h ⊢
  intro hmem
  exact absurd hmem h

/-- C6: deleteFile answers UnrecognizedAssetKindError on a URL with none
of the three folder markers; on a /photos/ (resp. /videos/) URL the
sibling thumb_ (resp. thumb_...jpg) thumbnail is gone afterwards,
deleted best-effort when present; and a missing primary file yields the
boolean false result, not an error. -/
theorem deleteFile_url_dispatch (fs : FS) (url : String) :
    (strIncludes url "/photos/" = false → strIncludes url "/videos/" = false →
     strIncludes url "/audio/" = false →
       deleteFile fs url = Except.error UploadError.unrecognizedAssetKind)
  ∧ (strIncludes url "/photos/" = true →
       ∃ fs2 b, deleteFile fs url = Except.ok (fs2, b)
         ∧ fs2.existsF ("uploads/thumbnails/thumb_" ++ basename url) = false
         ∧ (fs.existsF ("uploads/photos/" ++ basename url) = false → b = false))
  ∧ (strIncludes url "/photos/" = false → strIncludes url "/videos/" = true →
       ∃ fs2 b, deleteFile fs url = Except.ok (fs2, b)
         ∧ fs2.existsF ("uploads/thumbnails/thumb_" ++ basename url ++ ".jpg") = false
         ∧ (fs.existsF ("uploads/videos/" ++ basename url) = false → b = false))
  ∧ (strIncludes url "/photos/" = false → strIncludes url "/videos/" = false →
     strIncludes url "/audio/" = true →
       ∃ fs2 b, deleteFile fs url = Except.ok (fs2, b)
         ∧ (fs.existsF ("uploads/audio/" ++ basename url) = false → b = false)) := by
  refine ⟨?_, ?_, ?_, ?_⟩
  · intro h1 h2 h3
    simp [deleteFile, h1, h2, h3]
  · intro h1
    by_cases ht : fs.existsF ("uploads/thumbnails/thumb_" ++ basename url) = true
    · by_cases hp : (fs.unlink ("uploads/thumbnails/thumb_" ++ basename url)).existsF
          ("uploads/photos/" ++ basename url) = true
      · have hval : deleteFile fs url = Except.ok
            ((fs.unlink ("uploads/thumbnails/thumb_" ++ basename url)).unlink
               ("uploads/photos/" ++ basename url), true) := by
          simp [deleteFile, h1, ht, hp]
        refine ⟨_, _, hval, ?_, ?_⟩
        · exact existsF_unlink_false _ _ _ (existsF_unlink_self fs _)
        · intro hfp
          rw [existsF_unlink_false fs _ _ hfp] at hp
          exact Bool.noConfusion hp
      · have hval : deleteFile fs url = Except.ok
            (fs.unlink ("uploads/thumbnails/thumb_" ++ basename url), false) := by
          simp [deleteFile, h1, ht, hp]
        exact ⟨_, _, hval, existsF_unlink_self fs _, fun _ => rfl⟩
    · have htf : fs.existsF ("uploads/thumbnails/thumb_" ++ basename url) = false := by
        revert ht
        cases fs.existsF ("uploads/thumbnails/thumb_" ++ basename url) <;> simp
      by_cases hp : fs.existsF ("uploads/photos/" ++ basename url) = true
      · have hval : deleteFile fs url = Except.ok
            (fs.unlink ("uploads/photos/" ++ basename url), true) := by
          simp [deleteFile, h1, htf, hp]
        refine ⟨_, _, hval, existsF_unlink_false fs _ _ htf, ?_⟩
        · intro hfp
          rw [hfp] at hp
          exact Bool.noConfusion hp
      · have hval : deleteFile fs url = Except.ok (fs, false) := by
          simp [deleteFile, h1, htf, hp]
        exact ⟨_, _, hval, htf, fun _ => rfl⟩
  · intro h1 h2
    by_cases ht : fs.existsF ("uploads/thumbnails/thumb_" ++ basename url ++ ".jpg") = true
    · by_cases hp : (fs.unlink ("uploads/thumbnails/thumb_" ++ basename url ++ ".jpg")).existsF
          ("uploads/videos/" ++ basename url) = true
      · have hval : deleteFile fs url = Except.ok
            ((fs.unlink ("uploads/thumbnails/thumb_" ++ basename url ++ ".jpg")).unlink
               ("uploads/videos/" ++ basename url), true) := by
          simp [deleteFile, h1, h2, ht, hp]
        refine ⟨_, _, hval, ?_, ?_⟩
        · exact existsF_unlink_false _ _ _ (existsF_unlink_self fs _)
        · intro hfp
          rw [existsF_unlink_false fs _ _ hfp] at hp
          exact Bool.noConfusion hp
      · have hval : deleteFile fs url = Except.ok
            (fs.unlink ("uploads/thumbnails/thumb_" ++ basename url ++ ".jpg"), false) := by
          simp [deleteFile, h1, h2, ht, hp]
        exact ⟨_, _, hval, existsF_unlink_self fs _, fun _ => rfl⟩
    · have htf : fs.existsF ("uploads/thumbnails/thumb_" ++ basename url ++ ".jpg") = false := by
        revert ht
        cases fs.existsF ("uploads/thumbnails/thumb_" ++ basename url ++ ".jpg") <;> simp
      by_cases hp : fs.existsF ("uploads/videos/" ++ basename url) = true
      · have hval : deleteFile fs url = Except.ok
            (fs.unlink ("uploads/videos/" ++ basename url), true) := by
          simp [deleteFile, h1, h2, htf, hp]
        refine ⟨_, _, hval, existsF_unlink_false fs _ _ htf, ?_⟩
        · intro hfp
          rw [hfp] at hp
          exact Bool.noConfusion hp
      · have hval : deleteFile fs url = Except.ok (fs, false) := by
          simp [deleteFile, h1, h2, htf, hp]
        exact ⟨_, _, hval, htf, fun _ => rfl⟩
  · intro h1 h2 h3
    by_cases hp : fs.existsF ("uploads/audio/" ++ basename url) = true
    · have hval : deleteFile fs url = Except.ok
          (fs.unlink ("uploads/audio/" ++ basename url), true) := by
        simp [deleteFile, h1, h2, h3, hp]
      refine ⟨_, _, hval, ?_⟩
      intro hfp
      rw [hfp] at hp
      exact Bool.noConfusion hp
    · have hval : deleteFile fs url = Except.ok (fs, false) := by
        simp [deleteFile, h1, h2, h3, hp]
      exact ⟨_, _, hval, fun _ => rfl⟩

/-- Concrete instantiation of the deleteFile theorem: an unrecognized
URL errors, deleting the stored photo also removes its thumb_ sibling,
and deleting a missing audio URL returns false. -/
theorem deleteFile_url_dispatch_witness :
    (deleteFile sampleFS "/uploads/misc/a.jpg" =
       Except.error UploadError.unrecognizedAssetKind)
  ∧ (∃ fs2 b, deleteFile sampleFS "/uploads/photos/a.jpg" = Except.ok (fs2, b)
       ∧ fs2.existsF "uploads/thumbnails/thumb_a.jpg" = false
       ∧ (sampleFS.existsF "uploads/photos/a.jpg" = false → b = false))
  ∧ (∃ fs2 b, deleteFile sampleFS "/uploads/audio/zz.mp3" = Except.ok (fs2, b)
       ∧ (sampleFS.existsF "uploads/audio/zz.mp3" = false → b = false)) :=
  ⟨(deleteFile_url_dispatch sampleFS "/uploads/misc/a.jpg").1 rfl rfl rfl,
   (deleteFile_url_dispatch sampleFS "/uploads/photos/a.jpg").2.1 rfl,
   (deleteFile_url_dispatch sampleFS "/uploads/audio/zz.mp3").2.2.2 rfl rfl rfl⟩

/-- C7: a webhook status-update request whose x-service-key header is
absent or differs from the configured secret fails with 401, whatever
the body fields are (the key is checked before any field validation),
and the alert service is never reached. -/
theorem updateAlertStatus_requires_service_key (svc : Except String Unit)
    (env : Option String) (req : StatusRequest)
    (h : req.serviceKeyHeader = none ∨ req.serviceKeyHeader ≠ env) :
    updateAlertStatus svc env req = { status := 401, serviceCalled := false } := by
  rcases hh : req.serviceKeyHeader with _ | s
  · simp [updateAlertStatus, hh]
  · rcases h with h | h
    · rw [hh] at h
      exact Option.noConfusion h
    · rw [hh] at h
      have hne : (some s != env) = true := bne_iff_ne.mpr h
      simp [updateAlertStatus, hh, hne]

/-- Concrete instantiation of the service-key theorem: a wrong key with
an otherwise fully valid payload is still rejected with 401 and no
service call. -/
theorem updateAlertStatus_requires_service_key_witness :
    (some "wrong" ≠ some "bolle-key") ∧
    updateAlertStatus (Except.ok ()) (some "bolle-key")
      { alertId := some (.str "a1"), statusField := some (.str "resolved")
      , comment := some (.str "done"), updatedBy := some (.str "svc")
      , serviceKeyHeader := some "wrong" } =
      { status := 401, serviceCalled := false } :=
  ⟨by decide,
   updateAlertStatus_requires_service_key (Except.ok ()) (some "bolle-key")
     { alertId := some (.str "a1"), statusField := some (.str "resolved")
     , comment := some (.str "done"), updatedBy := some (.str "svc")
     , serviceKeyHeader := some "wrong" }
     (Or.inr (by decide))⟩

/-- C10: with SERVICE_API_KEY unset, the webhook authentication is
fail-closed: every request, with or without an x-service-key header and
whatever its value, is answered 401 and the service is never called. -/
theorem updateAlertStatus_fail_closed_unset_key (svc : Except String Unit)
    (req : StatusRequest) :
    updateAlertStatus svc none req = { status := 401, serviceCalled := false } := by
  rcases hh : req.serviceKeyHeader with _ | s
  · simp [updateAlertStatus, hh]
  · have hne : (some s != (none : Option String)) = true := rfl
    simp [updateAlertStatus, hh, hne]

/-- C8: getAlertsNearby answers 400 when the longitude or latitude
query parameter is missing (undefined or empty, the falsy strings);
otherwise it queries centered at [longitude, latitude] in that order,
with radius the parsed distance when supplied and 5000 meters when
distance is unspecified. -/
theorem getAlertsNearby_center_and_radius (parseFloatJs parseIntJs : String → ℚ)
    (q : NearbyQuery) :
    ((q.longitude = none ∨ q.latitude = none) →
       getAlertsNearby parseFloatJs parseIntJs q = NearbyOutcome.badRequest)
  ∧ (∀ lon lat, q.longitude = some lon → q.latitude = some lat → lon ≠ "" → lat ≠ "" →
      (q.distance = none →
         getAlertsNearby parseFloatJs parseIntJs q =
           NearbyOutcome.queried [parseFloatJs lon, parseFloatJs lat] 5000)
      ∧ (∀ d, q.distance = some d → d ≠ "" →
           getAlertsNearby parseFloatJs parseIntJs q =
             NearbyOutcome.queried [parseFloatJs lon, parseFloatJs lat] (parseIntJs d))) := by
  constructor
  · intro h
    rcases h with h | h
    · rw [getAlertsNearby, h]
    · rw [getAlertsNearby, h]
      cases q.longitude <;> rfl
  · intro lon lat hlon hlat hlon2 hlat2
    have hcond : (lon == "" || lat == "") = false := by
      simp [hlon2, hlat2]
    constructor
    · intro hd
      rw [getAlertsNearby, hlon, hlat, hd]
      simp only [hcond, Bool.false_eq_true, if_false]
    · intro d hd hd2
      rw [getAlertsNearby, hlon, hlat, hd]
      simp only [hcond, Bool.false_eq_true, if_false]
      rw [if_neg (by simp [hd2])]

/-- Concrete instantiation of the nearby-query theorem: missing
latitude gives 400; with both present the center is [lon, lat] and the
radius defaults to 5000 without a distance and follows the parsed
distance with one. -/
theorem getAlertsNearby_center_and_radius_witness :
    (getAlertsNearby (fun s => (strToNum s).getD 0) (fun s => (strToNum s).getD 0)
       { longitude := some "2.35", latitude := none, distance := none } =
       NearbyOutcome.badRequest)
  ∧ (getAlertsNearby (fun s => (strToNum s).getD 0) (fun s => (strToNum s).getD 0)
       { longitude := some "2.35", latitude := some "48.85", distance := none } =
       NearbyOutcome.queried
         [(strToNum "2.35").getD 0, (strToNum "48.85").getD 0] 5000)
  ∧ (getAlertsNearby (fun s => (strToNum s).getD 0) (fun s => (strToNum s).getD 0)
       { longitude := some "2.35", latitude := some "48.85", distance := some "1000" } =
       NearbyOutcome.queried
         [(strToNum "2.35").getD 0, (strToNum "48.85").getD 0]
         ((strToNum "1000").getD 0)) :=
  ⟨(getAlertsNearby_center_and_radius _ _
      { longitude := some "2.35", latitude := none, distance := none }).1 (Or.inr rfl),
   ((getAlertsNearby_center_and_radius _ _
      { longitude := some "2.35", latitude := some "48.85", distance := none }).2
      "2.35" "48.85" rfl rfl (by decide) (by decide)).1 rfl,
   ((getAlertsNearby_center_and_radius _ _
      { longitude := some "2.35", latitude := some "48.85", distance := some "1000" }).2
      "2.35" "48.85" rfl rfl (by decide) (by decide)).2 "1000" rfl (by decide)⟩

end Citizen
